import Mathlib

/-!
Shallow embedding of the TolKI usage-ledger (convex/usageSessions.ts), the
usage-tracking hooks (useTrackUsage, integer-credit and fractional-credit
versions) and the audio-capture/metering component (AudioVisualizer.tsx),
together with theorems settling the specification claims about them.

Convex mutations are embedded as state-passing functions `DB -> ... -> DB ×
Except String α`: the returned `DB` is the database at exit (after the writes
the handler performed before returning or throwing), and the `Except` value is
the handler's result or thrown error message.
-/

/-- A row of the `users` table (the fields usageSessions.ts touches). -/
structure User where
  id : Nat
  clerkId : String
  credits : ℚ
  lastActive : Option Nat
deriving Repr, DecidableEq

/-- A row of the `usageSessions` table. -/
structure Session where
  id : Nat
  userId : Nat
  creditsUsed : ℚ
  languageFrom : String
  languageTo : String
  startedAt : Nat
  isActive : Bool
  endedAt : Option Nat
deriving Repr, DecidableEq

/-- The database state seen by the mutations; `nextId` models Convex id
allocation for inserts. -/
structure DB where
  users : List User
  sessions : List Session
  nextId : Nat
deriving Repr, DecidableEq

/-- `ctx.db.query("users").withIndex("by_clerk_id", ...).first()`. -/
def findUserByClerkId (db : DB) (clerkId : String) : Option User :=
  db.users.find? (fun u => u.clerkId == clerkId)

/-- `ctx.db.query("usageSessions").withIndex("by_active", ...).first()`. -/
def firstActiveSession (db : DB) (uid : Nat) : Option Session :=
  db.sessions.find? (fun s => s.userId == uid && s.isActive)

/-- `ctx.db.query("usageSessions").withIndex("by_active", ...).collect()`. -/
def activeSessionsOf (db : DB) (uid : Nat) : List Session :=
  db.sessions.filter (fun s => s.userId == uid && s.isActive)

/-- `ctx.db.get(sessionId)`. -/
def findSession (db : DB) (sid : Nat) : Option Session :=
  db.sessions.find? (fun s => s.id == sid)

/-- The patch `{ isActive: false, endedAt: Date.now() }` applied to session
`sid`, as a per-row function. -/
def endPatch (sid now : Nat) (s : Session) : Session :=
  if s.id = sid then { s with isActive := false, endedAt := some now } else s

/-- The patch `{ credits: user.credits - 1, lastActive: Date.now() }` applied
to user `uid`. -/
def deductCreditPatch (uid now : Nat) (u : User) : User :=
  if u.id = uid then { u with credits := u.credits - 1, lastActive := some now } else u

/-- The patch `{ creditsUsed: used }` applied to session `sid`. -/
def setCreditsUsedPatch (sid : Nat) (used : ℚ) (s : Session) : Session :=
  if s.id = sid then { s with creditsUsed := used } else s

/-- startSession's loop body: every collected active session of the user gets
`{ isActive: false, endedAt: Date.now() }`; rows of other users and inactive
rows are untouched. -/
def deactivateFor (uid now : Nat) (s : Session) : Session :=
  if s.userId = uid ∧ s.isActive = true then
    { s with isActive := false, endedAt := some now }
  else s

/-- The `startSession` mutation of convex/usageSessions.ts. -/
def startSession (db : DB) (clerkId languageFrom languageTo : String) (now : Nat) :
    DB × Except String Nat :=
  match findUserByClerkId db clerkId with
  | none => (db, Except.error "User not found")
  | some user =>
    if user.credits ≤ 0 then
      (db, Except.error "Insufficient credits")
    else
      let deactivated := db.sessions.map (deactivateFor user.id now)
      let newSession : Session :=
        { id := db.nextId, userId := user.id, creditsUsed := 0,
          languageFrom := languageFrom, languageTo := languageTo,
          startedAt := now, isActive := true, endedAt := none }
      ({ db with sessions := deactivated ++ [newSession], nextId := db.nextId + 1 },
        Except.ok db.nextId)

/-- The final-details object `endSession` returns for an active session. -/
structure EndResult where
  creditsUsed : ℚ
  duration : Int
deriving Repr, DecidableEq

/-- The `endSession` mutation of convex/usageSessions.ts. `Except.ok none`
is the bare `return` taken when the session is already inactive. -/
def endSession (db : DB) (sid : Nat) (now : Nat) :
    DB × Except String (Option EndResult) :=
  match findSession db sid with
  | none => (db, Except.error "Session not found")
  | some session =>
    if !session.isActive then
      (db, Except.ok none)
    else
      ({ db with sessions := db.sessions.map (endPatch sid now) },
        Except.ok (some { creditsUsed := session.creditsUsed,
                          duration := (now : Int) - (session.startedAt : Int) }))

/-- The result object of `incrementSessionCredits`. -/
structure IncrementResult where
  creditsRemaining : ℚ
  sessionCreditsUsed : ℚ
deriving Repr, DecidableEq

/-- The `incrementSessionCredits` mutation of convex/usageSessions.ts (the
per-minute heartbeat of the integer-credit hook). -/
def incrementSessionCredits (db : DB) (clerkId : String) (now : Nat) :
    DB × Except String IncrementResult :=
  match findUserByClerkId db clerkId with
  | none => (db, Except.error "User not found")
  | some user =>
    match firstActiveSession db user.id with
    | none => (db, Except.error "No active session found")
    | some activeSession =>
      if user.credits ≤ 0 then
        ({ db with sessions := db.sessions.map (endPatch activeSession.id now) },
          Except.error "Insufficient credits - session ended")
      else
        let dbAfterUser := { db with users := db.users.map (deductCreditPatch user.id now) }
        let dbFinal := { dbAfterUser with
          sessions := dbAfterUser.sessions.map
            (setCreditsUsedPatch activeSession.id (activeSession.creditsUsed + 1)) }
        (dbFinal, Except.ok { creditsRemaining := user.credits - 1,
                              sessionCreditsUsed := activeSession.creditsUsed + 1 })

/-- Number of active sessions a user has in a database state. -/
def countActiveSessions (db : DB) (uid : Nat) : Nat :=
  (activeSessionsOf db uid).length

/-- Every session of the user that was active in `old` appears in `new`
deactivated, with `endedAt` stamped. -/
def allPriorDeactivated (old new : DB) (uid now : Nat) : Prop :=
  ∀ s ∈ old.sessions, s.userId = uid → s.isActive = true →
    ∃ s', s' ∈ new.sessions ∧ s'.id = s.id ∧ s'.isActive = false ∧
      s'.endedAt = some now

/-! ## The useTrackUsage hooks

Two versions of the hook exist in the repository: the integer-credit version
(per-minute `incrementSessionCredits` heartbeat, stop condition
`result.creditsRemaining === 0`) and the fractional-credit version (3-second
`updateFractionalCredits` heartbeat, stop condition
`result.creditsRemaining <= 0.05`). Each hook's component state and the
effects of a heartbeat tick and of `stopTracking` are embedded below; ledger
calls the hook issues are collected in a list.

`stopTracking` is a closure recreated on every render: it clears the interval
through the stable `intervalRef` and resets state through the stable setters,
but the `sessionId` it reads in `if (sessionId)` is the useState value
captured by the render that created the closure, not the current stored
value. The embedding therefore passes that captured value (`capturedSid`)
explicitly, separate from the hook state the setters update. The interval
callback installed by `startTracking` holds the `stopTracking` closure of the
render in which `startTracking` ran; in the normal start flow that render's
`sessionId` is still null — `setSessionId(newSessionId)` re-renders the
component but cannot change the closure the interval already captured. -/

/-- A call the hook makes against the usage ledger. -/
inductive LedgerCall where
  | endSessionCall (sid : Nat)
deriving Repr, DecidableEq

/-- State of the integer-credit hook: `sessionId`, `isTracking`,
`sessionCreditsUsed` and whether the heartbeat interval is installed. -/
structure HookStateV2 where
  sessionId : Option Nat
  isTracking : Bool
  sessionCreditsUsed : ℚ
  intervalActive : Bool
deriving Repr, DecidableEq

/-- State of the fractional-credit hook, which additionally tracks
`sessionSecondsUsed` and `startTimeRef`. -/
structure HookStateV3 where
  sessionId : Option Nat
  isTracking : Bool
  sessionCreditsUsed : ℚ
  sessionSecondsUsed : Nat
  intervalActive : Bool
  startTime : Option Nat
deriving Repr, DecidableEq

/-- `stopTracking` of the integer-credit hook, as the closure of a render
whose captured `sessionId` value is `capturedSid`: clear the interval if
present, call `endSession` with the **captured** sessionId if it is non-null
(`if (sessionId) { await endSession({ sessionId }) }`), then reset all hook
state through the stable setters (`setIsTracking(false)`,
`setSessionId(null)`, `setSessionCreditsUsed(0)`). -/
def stopTrackingV2 (capturedSid : Option Nat) (_st : HookStateV2) :
    HookStateV2 × List LedgerCall :=
  let calls := match capturedSid with
    | some sid => [LedgerCall.endSessionCall sid]
    | none => []
  ({ sessionId := none, isTracking := false, sessionCreditsUsed := 0,
     intervalActive := false }, calls)

/-- `stopTracking` of the fractional-credit hook, as the closure of a render
whose captured `sessionId` value is `capturedSid`; also resets
`sessionSecondsUsed` and `startTimeRef`. -/
def stopTrackingV3 (capturedSid : Option Nat) (_st : HookStateV3) :
    HookStateV3 × List LedgerCall :=
  let calls := match capturedSid with
    | some sid => [LedgerCall.endSessionCall sid]
    | none => []
  ({ sessionId := none, isTracking := false, sessionCreditsUsed := 0,
     sessionSecondsUsed := 0, intervalActive := false, startTime := none }, calls)

/-- The result object of the fractional-credit heartbeat mutation
(`updateFractionalCredits`), as consumed by the hook. -/
structure UpdateFractionalResult where
  creditsRemaining : ℚ
  sessionCreditsUsed : ℚ
  secondsUsed : Nat
deriving Repr, DecidableEq

/-- One heartbeat-interval tick of the integer-credit hook, applied to the
ledger call's outcome: on success store `sessionCreditsUsed` and run the
captured `stopTracking` closure exactly when `result.creditsRemaining === 0`;
on a thrown error run it (the catch branch). `capturedSid` is the sessionId
value the interval callback's `stopTracking` closure captured at its creating
render — null in the normal start flow. -/
def heartbeatTickV2 (capturedSid : Option Nat) (st : HookStateV2)
    (result : Except String IncrementResult) : HookStateV2 × List LedgerCall :=
  match result with
  | Except.ok r =>
    let stOk := { st with sessionCreditsUsed := r.sessionCreditsUsed }
    if r.creditsRemaining = 0 then stopTrackingV2 capturedSid stOk else (stOk, [])
  | Except.error _ => stopTrackingV2 capturedSid st

/-- One heartbeat-interval tick of the fractional-credit hook: on success
store `sessionCreditsUsed`/`secondsUsed` and run the captured `stopTracking`
closure exactly when `result.creditsRemaining <= 0.05`; on a thrown error run
it. `capturedSid` as in `heartbeatTickV2`. -/
def heartbeatTickV3 (capturedSid : Option Nat) (st : HookStateV3)
    (result : Except String UpdateFractionalResult) : HookStateV3 × List LedgerCall :=
  match result with
  | Except.ok r =>
    let stOk := { st with sessionCreditsUsed := r.sessionCreditsUsed,
                          sessionSecondsUsed := r.secondsUsed }
    if r.creditsRemaining ≤ 5 / 100 then stopTrackingV3 capturedSid stOk else (stOk, [])
  | Except.error _ => stopTrackingV3 capturedSid st

/-- Argument object of the integer-credit heartbeat call:
`incrementCredits({ clerkId: clerkUser.id })`. -/
structure IncrementArgs where
  clerkId : String
deriving Repr, DecidableEq

/-- Argument object of the fractional-credit heartbeat call:
`updateFractionalCredits({ clerkId: clerkUser.id, secondsToAdd })` with
`secondsToAdd = 3`. -/
structure UpdateFractionalArgs where
  clerkId : String
  secondsToAdd : Nat
deriving Repr, DecidableEq

/-- The request the integer-credit hook's interval closure sends on each tick,
as a function of the authenticated clerkId and the hook state the closure can
see. The source builds it from `clerkUser.id` alone. -/
def heartbeatRequestV2 (clerkId : String) (_st : HookStateV2) : IncrementArgs :=
  { clerkId := clerkId }

/-- The request the fractional-credit hook's interval closure sends on each
tick: `secondsToAdd` is the constant 3 (the computed `actualSeconds` elapsed
time is not sent). -/
def heartbeatRequestV3 (clerkId : String) (_st : HookStateV3) : UpdateFractionalArgs :=
  { clerkId := clerkId, secondsToAdd := 3 }

/-! ## AudioVisualizer (capture/metering component) -/

/-- The Android recording options literal passed to `prepareToRecordAsync`. -/
structure AndroidRecordingOptions where
  fileExtension : String
  outputFormat : String
  audioEncoder : String
  sampleRate : Nat
  numberOfChannels : Nat
  bitRate : Nat
deriving Repr, DecidableEq

/-- The iOS recording options literal passed to `prepareToRecordAsync`. -/
structure IOSRecordingOptions where
  fileExtension : String
  outputFormat : String
  audioQuality : String
  sampleRate : Nat
  numberOfChannels : Nat
  bitRate : Nat
deriving Repr, DecidableEq

/-- The `android` recording configuration in AudioVisualizer.startMonitoring. -/
def androidRecordingOptions : AndroidRecordingOptions :=
  { fileExtension := ".aac", outputFormat := "AAC_ADTS", audioEncoder := "AAC",
    sampleRate := 44100, numberOfChannels := 2, bitRate := 128000 }

/-- The `ios` recording configuration in AudioVisualizer.startMonitoring. -/
def iosRecordingOptions : IOSRecordingOptions :=
  { fileExtension := ".m4a", outputFormat := "MPEG4AAC", audioQuality := "HIGH",
    sampleRate := 44100, numberOfChannels := 2, bitRate := 128000 }

/-- Modelled from the spec: the wire protocol's fixed audio-format contract,
16-bit linear PCM, mono, 24kHz. Stated from the spec's words for comparison
with the capture configuration embedded from the source. -/
def specProtocolSampleRate : Nat := 24000

/-- Modelled from the spec: the protocol contract's channel count (mono). -/
def specProtocolChannels : Nat := 1

/-- A capture configuration (sample rate, channel count) matches the spec's
fixed protocol format. -/
def matchesSpecProtocolFormat (rate channels : Nat) : Prop :=
  rate = specProtocolSampleRate ∧ channels = specProtocolChannels

/-- `SPEECH_THRESHOLD` of AudioVisualizer.tsx (dB). -/
def SPEECH_THRESHOLD : ℚ := -40

/-- The speech/silence decision in `animateDots`:
`const isSpeaking = level > SPEECH_THRESHOLD`. -/
def animateDotsIsSpeaking (level : ℚ) : Bool :=
  decide (level > SPEECH_THRESHOLD)

/-- The capture/metering state of the AudioVisualizer component: whether the
level-polling interval is installed and whether a recording object is held. -/
structure VisualizerState where
  intervalActive : Bool
  recording : Bool
deriving Repr, DecidableEq

/-- `recording.stopAndUnloadAsync()`, which may reject; the flag selects the
environment behaviour. -/
def stopAndUnload (fails : Bool) : Except String Unit :=
  if fails then Except.error "stop error" else Except.ok ()

/-- `stopMonitoring` of AudioVisualizer.tsx: clear the interval if installed;
if a recording is held, `stopAndUnloadAsync` it inside try/catch — on success
`setRecording(null)`, on failure the error is caught (warned) and the
recording reference is kept, since `setRecording(null)` is skipped. The
function itself never propagates an error. -/
def stopMonitoring (stopFails : Bool) (s : VisualizerState) :
    Except String VisualizerState :=
  let s1 := if s.intervalActive then { s with intervalActive := false } else s
  if s1.recording then
    match stopAndUnload stopFails with
    | Except.ok _ => Except.ok { s1 with recording := false }
    | Except.error _ => Except.ok s1
  else
    Except.ok s1

/-! ## Concrete instances used by witnesses and counterexamples -/

/-- A user with a positive integer credit balance. -/
def userW : User := { id := 0, clerkId := "u", credits := 5, lastActive := none }

/-- An active session of `userW`. -/
def sessionW : Session :=
  { id := 1, userId := 0, creditsUsed := 2, languageFrom := "en",
    languageTo := "fr", startedAt := 0, isActive := true, endedAt := none }

/-- A database with one user holding credits and one active session. -/
def dbW : DB := { users := [userW], sessions := [sessionW], nextId := 2 }

/-- A user whose credit balance is exactly 0. -/
def userZ : User := { id := 0, clerkId := "z", credits := 0, lastActive := none }

/-- A database where the user has no credits left but still has an active
session. -/
def dbZ : DB := { users := [userZ], sessions := [sessionW], nextId := 2 }

/-- A session that has already been ended. -/
def sessionEnded : Session :=
  { id := 3, userId := 0, creditsUsed := 1, languageFrom := "en",
    languageTo := "fr", startedAt := 0, isActive := false, endedAt := some 4 }

/-- A database whose only session is already ended. -/
def dbE : DB := { users := [userW], sessions := [sessionEnded], nextId := 4 }

/-- A database whose user holds a fractional balance of half a credit. -/
def dbC1 : DB :=
  { users := [{ id := 0, clerkId := "u", credits := 1/2, lastActive := none }],
    sessions := [{ id := 1, userId := 0, creditsUsed := 1, languageFrom := "en",
                   languageTo := "fr", startedAt := 0, isActive := true,
                   endedAt := none }],
    nextId := 2 }

/-- The integer-credit hook mid-session, tracking session 1. -/
def stC1 : HookStateV2 :=
  { sessionId := some 1, isTracking := true, sessionCreditsUsed := 1,
    intervalActive := true }

/-- The heartbeat result the ledger produces on `dbC1`: the balance went
negative (1/2 - 1 = -1/2). -/
def rC1 : IncrementResult := { creditsRemaining := -1/2, sessionCreditsUsed := 2 }

/-- The fractional-credit hook mid-session, tracking session 7. -/
def stW3 : HookStateV3 :=
  { sessionId := some 7, isTracking := true, sessionCreditsUsed := 1,
    sessionSecondsUsed := 30, intervalActive := true, startTime := some 0 }

/-- A fractional heartbeat result reporting an exhausted balance. -/
def rW3 : UpdateFractionalResult :=
  { creditsRemaining := 0, sessionCreditsUsed := 1, secondsUsed := 33 }

/-- The integer-credit hook mid-session, tracking session 4. -/
def stW2 : HookStateV2 :=
  { sessionId := some 4, isTracking := true, sessionCreditsUsed := 3,
    intervalActive := true }

/-- An integer heartbeat result reporting an exhausted balance. -/
def rW2 : IncrementResult := { creditsRemaining := 0, sessionCreditsUsed := 4 }

/-! ## Helper lemmas -/

/-- A session run through startSession's deactivation pass never counts as an
active session of that user afterwards. -/
theorem deactivateFor_filter_false (uid now : Nat) (s : Session) :
    ((deactivateFor uid now s).userId == uid &&
      (deactivateFor uid now s).isActive) = false := by
  unfold deactivateFor
  by_cases h : s.userId = uid ∧ s.isActive = true
  · simp [h]
  · rw [if_neg h]
    push_neg at h
    by_cases hu : s.userId = uid
    · simp [hu, h hu]
    · simp [hu]

/-- After the deactivation pass, the user has no active sessions among the
pre-existing rows. -/
theorem filter_map_deactivateFor (uid now : Nat) (l : List Session) :
    (l.map (deactivateFor uid now)).filter
      (fun s => s.userId == uid && s.isActive) = [] := by
  induction l with
  | nil => rfl
  | cons a t ih =>
    simp [List.filter_cons, deactivateFor_filter_false uid now a, ih]

/-! ## Claim theorems -/

/-- Claim C1, counterexample: the integer-credit hook's stop condition is
`result.creditsRemaining === 0`, so a heartbeat whose returned balance is
negative — reachable from the ledger itself when the stored balance is the
fractional 1/2 — satisfies `creditsRemaining <= 0` yet the tick issues no
`endSession` call and leaves the interval installed and the session tracked:
the loop continues to the next heartbeat. -/
theorem heartbeatV2_negative_balance_keeps_tracking :
    ((-1 : ℚ)/2 ≤ 0) ∧
    (incrementSessionCredits dbC1 "u" 60).2 = Except.ok rC1 ∧
    (heartbeatTickV2 none stC1 (Except.ok rC1)).2 = [] ∧
    (heartbeatTickV2 none stC1 (Except.ok rC1)).1.intervalActive = true ∧
    (heartbeatTickV2 none stC1 (Except.ok rC1)).1.sessionId = some 1 := by
  refine ⟨by norm_num, ?_, ?_, ?_, ?_⟩
  · simp [incrementSessionCredits, findUserByClerkId, firstActiveSession, dbC1, rC1]
    norm_num
  · simp [heartbeatTickV2, stC1, rC1]
  · simp [heartbeatTickV2, stC1, rC1]
  · simp [heartbeatTickV2, stC1, rC1]

/-- Claim C1, amended: the fractional-credit hook stops tracking (clears the
interval and drops the session) on any heartbeat result with
`creditsRemaining <= 0.05`, hence on every result `<= 0`; the integer-credit
hook stops immediately only when the returned balance is exactly 0. -/
theorem heartbeat_quota_stop_amended
    (cap3 : Option Nat) (st3 : HookStateV3) (r3 : UpdateFractionalResult)
    (h3 : r3.creditsRemaining ≤ 0)
    (cap2 : Option Nat) (st2 : HookStateV2) (r2 : IncrementResult)
    (h2 : r2.creditsRemaining = 0) :
    (heartbeatTickV3 cap3 st3 (Except.ok r3)).1.intervalActive = false ∧
    (heartbeatTickV3 cap3 st3 (Except.ok r3)).1.sessionId = none ∧
    (heartbeatTickV2 cap2 st2 (Except.ok r2)).1.intervalActive = false ∧
    (heartbeatTickV2 cap2 st2 (Except.ok r2)).1.sessionId = none := by
  have hcond : r3.creditsRemaining ≤ 5 / 100 := le_trans h3 (by norm_num)
  refine ⟨?_, ?_, ?_, ?_⟩ <;>
    simp [heartbeatTickV3, heartbeatTickV2, stopTrackingV3, stopTrackingV2,
      hcond, h2]

/-- Witness for the amended C1 theorem at a negative fractional balance and at
an exactly-zero balance, with the interval callback's captured sessionId
null as in the normal start flow. -/
theorem heartbeat_quota_stop_amended_witness :
    (heartbeatTickV3 none stW3
      (Except.ok { creditsRemaining := -1, sessionCreditsUsed := 1,
                   secondsUsed := 33 })).1.intervalActive = false ∧
    (heartbeatTickV2 none stW2 (Except.ok rW2)).1.sessionId = none :=
  ⟨(heartbeat_quota_stop_amended none stW3 _ (by norm_num) none stW2 rW2 rfl).1,
   (heartbeat_quota_stop_amended none stW3 _ (by norm_num
      : ({ creditsRemaining := -1, sessionCreditsUsed := 1,
           secondsUsed := 33 } : UpdateFractionalResult).creditsRemaining ≤ 0)
      none stW2 rW2 rfl).2.2.2⟩

/-- Claim C2: after a successful startSession call the user has exactly one
(hence at most one) active session — the mutation first deactivates every
previously active session of that user, stamping `endedAt`, and then inserts
the single new active session. -/
theorem startSession_at_most_one_active
    (db : DB) (c lf lt : String) (now : Nat) (u : User)
    (hu : findUserByClerkId db c = some u) (hc : ¬ u.credits ≤ 0) :
    (startSession db c lf lt now).2 = Except.ok db.nextId ∧
    countActiveSessions (startSession db c lf lt now).1 u.id = 1 ∧
    allPriorDeactivated db (startSession db c lf lt now).1 u.id now := by
  have hdb : startSession db c lf lt now =
      ({ db with
          sessions := db.sessions.map (deactivateFor u.id now) ++
            [{ id := db.nextId, userId := u.id, creditsUsed := 0,
               languageFrom := lf, languageTo := lt, startedAt := now,
               isActive := true, endedAt := none }],
          nextId := db.nextId + 1 },
        Except.ok db.nextId) := by
    simp [startSession, hu, hc]
  refine ⟨by rw [hdb], ?_, ?_⟩
  · rw [hdb]
    unfold countActiveSessions activeSessionsOf
    simp [List.filter_append, filter_map_deactivateFor]
  · rw [hdb]
    unfold allPriorDeactivated
    intro s hmem hid hact
    refine ⟨deactivateFor u.id now s, ?_, ?_⟩
    · simp only [List.mem_append]
      exact Or.inl (List.mem_map_of_mem _ hmem)
    · unfold deactivateFor
      rw [if_pos ⟨hid, hact⟩]
      exact ⟨rfl, rfl, rfl⟩

/-- Witness for C2 on a concrete database with one previously active
session. -/
theorem startSession_at_most_one_active_witness :
    countActiveSessions (startSession dbW "u" "en" "fr" 10).1 0 = 1 :=
  (startSession_at_most_one_active dbW "u" "en" "fr" 10 userW rfl
    (by norm_num [userW])).2.1

/-- Claim C3, code bug: the heartbeat tick that receives the exhausted result
runs the `stopTracking` closure the interval captured at its creating render,
and in the normal start flow that closure's captured sessionId is null even
while the hook's stored sessionId is `some 7` (and `some 4` in the
integer-credit hook). The tick therefore clears the interval and resets the
tracking state, but issues zero `endSession` calls for the tracked session —
the claim (and the specification) require exactly one. -/
theorem quota_heartbeat_issues_no_endSession :
    stW3.sessionId = some 7 ∧
    (heartbeatTickV3 none stW3 (Except.ok rW3)).2 = [] ∧
    (heartbeatTickV3 none stW3 (Except.ok rW3)).1.intervalActive = false ∧
    (heartbeatTickV3 none stW3 (Except.ok rW3)).1.sessionId = none ∧
    stW2.sessionId = some 4 ∧
    (heartbeatTickV2 none stW2 (Except.ok rW2)).2 = [] := by
  have hcond : ((0 : ℚ) ≤ 5 / 100) := by norm_num
  refine ⟨rfl, ?_, ?_, ?_, rfl, ?_⟩ <;>
    simp [heartbeatTickV3, heartbeatTickV2, stopTrackingV3, stopTrackingV2,
      stW3, rW3, stW2, rW2, hcond]

/-- Claim C4, counterexample: the heartbeat the hooks send does not identify
the session by its session handle — two hook states tracking different
sessionIds produce the identical heartbeat request, whose only payload is the
clerkId — and the fractional heartbeat carries the constant 3 seconds rather
than the session's elapsed seconds. -/
theorem heartbeat_not_identified_by_session_handle :
    heartbeatRequestV2 "u" ⟨some 1, true, 0, true⟩ =
      heartbeatRequestV2 "u" ⟨some 2, true, 0, true⟩ ∧
    (1 : Nat) ≠ 2 ∧
    (heartbeatRequestV3 "u" ⟨some 1, true, 0, 100, true, some 0⟩).secondsToAdd = 3 :=
  ⟨rfl, by decide, rfl⟩

/-- Claim C4, amended: startSession has shape
(clerkId, languageFrom, languageTo) -> sessionId and the heartbeat's success
result carries the remaining credit balance, but the heartbeat call is keyed
by the user's clerkId — the ledger resolves that user's active session
server-side — and the request is invariant in the hook's stored session
handle. -/
theorem ledger_interface_amended
    (db : DB) (c lf lt : String) (now : Nat) (u : User) (s : Session)
    (hu : findUserByClerkId db c = some u)
    (hs : firstActiveSession db u.id = some s)
    (hc : ¬ u.credits ≤ 0) :
    (startSession db c lf lt now).2 = Except.ok db.nextId ∧
    (incrementSessionCredits db c now).2 =
      Except.ok { creditsRemaining := u.credits - 1,
                  sessionCreditsUsed := s.creditsUsed + 1 } ∧
    ∀ st1 st2 : HookStateV2, heartbeatRequestV2 c st1 = heartbeatRequestV2 c st2 := by
  refine ⟨?_, ?_, fun st1 st2 => rfl⟩
  · simp [startSession, hu, hc]
  · simp [incrementSessionCredits, hu, hs, hc]

/-- Witness for the amended C4 theorem on a concrete database. -/
theorem ledger_interface_amended_witness :
    (incrementSessionCredits dbW "u" 10).2 =
      Except.ok { creditsRemaining := userW.credits - 1,
                  sessionCreditsUsed := sessionW.creditsUsed + 1 } :=
  (ledger_interface_amended dbW "u" "en" "fr" 10 userW sessionW rfl rfl
    (by norm_num [userW])).2.1

/-- Claim C5, counterexample: the capture-side recording configuration shipped
in the repository (the metering recorder of AudioVisualizer) does not match
the protocol's fixed 16-bit PCM mono 24kHz contract: both platform
configurations record at 44100 Hz with 2 channels into AAC containers. -/
theorem capture_config_not_protocol_format :
    ¬ matchesSpecProtocolFormat androidRecordingOptions.sampleRate
        androidRecordingOptions.numberOfChannels ∧
    ¬ matchesSpecProtocolFormat iosRecordingOptions.sampleRate
        iosRecordingOptions.numberOfChannels := by
  constructor <;>
    simp [matchesSpecProtocolFormat, specProtocolSampleRate,
      specProtocolChannels, androidRecordingOptions, iosRecordingOptions]

/-- Claim C5, amended: the capture configuration is a hard-coded constant —
44100 Hz, 2 channels, AAC encoding on both platforms, not configurable per
session — but it is the native metering format, not the protocol's PCM16 mono
24kHz contract. -/
theorem capture_config_fixed_44100_stereo :
    androidRecordingOptions.sampleRate = 44100 ∧
    androidRecordingOptions.numberOfChannels = 2 ∧
    iosRecordingOptions.sampleRate = 44100 ∧
    iosRecordingOptions.numberOfChannels = 2 ∧
    androidRecordingOptions.audioEncoder = "AAC" ∧
    iosRecordingOptions.outputFormat = "MPEG4AAC" ∧
    androidRecordingOptions.sampleRate = iosRecordingOptions.sampleRate ∧
    androidRecordingOptions.numberOfChannels = iosRecordingOptions.numberOfChannels :=
  ⟨rfl, rfl, rfl, rfl, rfl, rfl, rfl, rfl⟩

/-- Claim C6: the speech/silence indicator computed in animateDots is
"speaking" exactly when the metered level strictly exceeds the fixed -40 dB
threshold, and "silent" (false) exactly when the level is at most -40 dB. -/
theorem isSpeaking_iff_above_threshold (level : ℚ) :
    (animateDotsIsSpeaking level = true ↔ level > -40) ∧
    (animateDotsIsSpeaking level = false ↔ level ≤ -40) := by
  unfold animateDotsIsSpeaking SPEECH_THRESHOLD
  constructor
  · simp
  · simp [not_lt]

/-- Witness for C6 just above and just below the threshold. -/
theorem isSpeaking_iff_above_threshold_witness :
    animateDotsIsSpeaking (-30) = true ∧ animateDotsIsSpeaking (-50) = false :=
  ⟨(isSpeaking_iff_above_threshold (-30)).1.mpr (by norm_num),
   (isSpeaking_iff_above_threshold (-50)).2.mpr (by norm_num)⟩

/-- Claim C7: invoking stopMonitoring while capture is already stopped (no
interval installed, no recording held) leaves the component state unchanged
and completes without an error, whatever the recorder environment would do —
stopping is idempotent and does not throw when already stopped. -/
theorem stopMonitoring_idempotent_no_throw (stopFails : Bool)
    (s : VisualizerState) (h1 : s.intervalActive = false)
    (h2 : s.recording = false) :
    stopMonitoring stopFails s = Except.ok s := by
  cases s
  simp_all [stopMonitoring]

/-- Witness for C7: a second stop on the stopped state is a no-op even when
the recorder would reject. -/
theorem stopMonitoring_idempotent_no_throw_witness :
    stopMonitoring true { intervalActive := false, recording := false } =
      Except.ok { intervalActive := false, recording := false } :=
  stopMonitoring_idempotent_no_throw true
    { intervalActive := false, recording := false } rfl rfl

/-- Claim C8: when the user exists, an active session exists, and the user's
balance is at most 0, incrementSessionCredits marks that session inactive
with `endedAt` stamped and throws "Insufficient credits - session ended";
the user rows (hence the balance) are untouched and the session-ending patch
never changes `creditsUsed`. -/
theorem incrementSessionCredits_insufficient_ends_session
    (db : DB) (c : String) (now : Nat) (u : User) (s : Session)
    (hu : findUserByClerkId db c = some u)
    (hs : firstActiveSession db u.id = some s)
    (hc : u.credits ≤ 0) :
    incrementSessionCredits db c now =
      ({ db with sessions := db.sessions.map (endPatch s.id now) },
        Except.error "Insufficient credits - session ended") ∧
    (incrementSessionCredits db c now).1.users = db.users ∧
    ∀ t : Session, (endPatch s.id now t).creditsUsed = t.creditsUsed := by
  refine ⟨?_, ?_, ?_⟩
  · simp [incrementSessionCredits, hu, hs, hc]
  · simp [incrementSessionCredits, hu, hs, hc]
  · intro t
    unfold endPatch
    by_cases h : t.id = s.id <;> simp [h]

/-- Witness for C8 on a database whose user has zero credits and an active
session. -/
theorem incrementSessionCredits_insufficient_ends_session_witness :
    (incrementSessionCredits dbZ "z" 9).2 =
      Except.error "Insufficient credits - session ended" ∧
    (incrementSessionCredits dbZ "z" 9).1.users = dbZ.users :=
  ⟨by rw [(incrementSessionCredits_insufficient_ends_session dbZ "z" 9 userZ
      sessionW rfl rfl (by norm_num [userZ])).1],
   (incrementSessionCredits_insufficient_ends_session dbZ "z" 9 userZ
      sessionW rfl rfl (by norm_num [userZ])).2.1⟩

/-- Claim C9: endSession is idempotent on already-ended sessions — if the
session exists and is inactive it performs no write and returns without the
final-details object — and it throws "Session not found" exactly when no
session exists for the id. -/
theorem endSession_idempotent_on_ended (db : DB) (sid now : Nat) :
    (∀ s, findSession db sid = some s → s.isActive = false →
      endSession db sid now = (db, Except.ok none)) ∧
    ((endSession db sid now).2 = Except.error "Session not found" ↔
      findSession db sid = none) := by
  constructor
  · intro s hs hi
    simp [endSession, hs, hi]
  · unfold endSession
    cases h : findSession db sid with
    | none => simp
    | some s => by_cases ha : s.isActive <;> simp [ha]

/-- Witness for C9 on a database whose only session is already ended. -/
theorem endSession_idempotent_on_ended_witness :
    endSession dbE 3 9 = (dbE, Except.ok none) :=
  (endSession_idempotent_on_ended dbE 3 9).1 sessionEnded rfl rfl

/-- Claim C10: startSession throws "User not found" when no user matches the
clerkId and "Insufficient credits" when the matched user's balance is at most
0; in both cases the database is returned unchanged — no session is created
and none is modified. -/
theorem startSession_preconditions_throw
    (db : DB) (c lf lt : String) (now : Nat) :
    (findUserByClerkId db c = none →
      startSession db c lf lt now = (db, Except.error "User not found")) ∧
    (∀ u, findUserByClerkId db c = some u → u.credits ≤ 0 →
      startSession db c lf lt now = (db, Except.error "Insufficient credits")) := by
  constructor
  · intro h
    simp [startSession, h]
  · intro u hu hc
    simp [startSession, hu, hc]

/-- Witness for C10: both precondition failures on a concrete database. -/
theorem startSession_preconditions_throw_witness :
    startSession dbZ "nobody" "en" "fr" 7 =
      (dbZ, Except.error "User not found") ∧
    startSession dbZ "z" "en" "fr" 7 =
      (dbZ, Except.error "Insufficient credits") :=
  ⟨(startSession_preconditions_throw dbZ "nobody" "en" "fr" 7).1 rfl,
   (startSession_preconditions_throw dbZ "z" "en" "fr" 7).2 userZ rfl
     (by norm_num [userZ])⟩
